import Mathlib

/-!
Verification of the pegasus-monitord workflow state-tracking engine
(`Pegasus/monitoring/workflow.py`).  The Python class `Workflow` is embedded
shallowly: Python dicts keyed by job name become functions `String → Option _`
or association lists where the source iterates over them, the jobs table keyed
by (job name, submit sequence) becomes an association list, and external side
effects (the database sink, the logger, the notification manager, the
jobstate.log file) are recorded in explicit fields of the state so that
theorems can speak about them.  Collaborators whose code is not among the
sources (`Pegasus.monitoring.job`, the monitord driver) are modelled from the
spec and marked as such in their doc comments.
-/

namespace Pegasus

/-- Render an optional string the way the Python percent-s format renders a
possibly-None value. -/
def optStr : Option String → String
  | some s => s
  | none => "None"

/-- Render an optional integer the way the Python percent-s format renders a
possibly-None value. -/
def optIntStr : Option Int → String
  | some i => toString i
  | none => "None"

/-- Zero-pad a natural number to width three, as the Python format string
percent-03d does. -/
def fmt3 (n : Nat) : String :=
  let s := toString n
  if s.length < 3 then String.mk (List.replicate (3 - s.length) '0') ++ s else s

/-- Write a key of an association list, replacing an existing binding in place
or appending a new one at the end; this follows Python dict assignment, which
keeps insertion order. -/
def updA (l : List (String × Nat)) (k : String) (v : Nat) : List (String × Nat) :=
  if (List.lookup k l).isSome then
    l.map (fun p => if p.1 == k then (p.1, v) else p)
  else l ++ [(k, v)]

/-- Update one key of a function-modelled Python dict. -/
def updF {β : Type} (m : String → Option β) (k : String) (v : β) : String → Option β :=
  fun k2 => if k2 = k then some v else m k2

/-- Delete one key of a function-modelled Python dict. -/
def eraseF {β : Type} (m : String → Option β) (k : String) : String → Option β :=
  fun k2 => if k2 = k then none else m k2

/-- Value of one field of an emitted event.  Python passes strings, integers,
and the captured stdout and stderr byte strings; the latter are modelled as
lists of characters so that lengths and slicing match Python byte strings. -/
inductive Value where
  | vs (s : String)
  | vi (i : Int)
  | vtext (t : List Char)
  deriving DecidableEq

/-- Field map of one emitted event. -/
abbrev Kwargs := List (String × Value)

/-- Model of the database sink collaborator: send returns true on success and
false when the Python call raises. -/
structure Sink where
  send : String → Kwargs → Bool

/-- Static per-job-name information parsed from the DAG file.  The source
stores it as the positional list sub_file, pre_exec, pre_args, post_exec,
post_args, is_subdag, subdag_dag, subdag_dir. -/
structure JobInfo where
  sub_file : Option String := none
  pre_exec : Option String := none
  pre_args : Option String := none
  post_exec : Option String := none
  post_args : Option String := none
  is_subdag : Bool := false
  subdag_dag : Option String := none
  subdag_dir : Option String := none
  deriving DecidableEq

/-- The fields of a Job Instance used by the embedded operations. -/
structure Job where
  wf_uuid : String
  exec_job_id : String
  job_submit_seq : Nat
  sched_id : Option String := none
  job_state : String := ""
  job_state_timestamp : Int := 0
  job_state_seq : Nat := 0
  site_name : Option String := none
  job_output_counter : Nat := 0
  stdout_text : Option (List Char) := none
  stderr_text : Option (List Char) := none
  deriving DecidableEq

/-- Replace the stored job object for a key of the jobs table; in Python the
Job object is mutated in place while sitting in the dict. -/
def writeJob (l : List ((String × Nat) × Job)) (k : String × Nat) (j : Job) :
    List ((String × Nat) × Job) :=
  l.map (fun p => if p.1 == k then (p.1, j) else p)

/-- Delete a key from the jobs table (Python del on a dict). -/
def eraseJob (l : List ((String × Nat) × Job)) (k : String × Nat) :
    List ((String × Nat) × Job) :=
  l.filter (fun p => !(p.1 == k))

/-- State of one monitored workflow: the fields of the Python Workflow object
that the embedded operations touch, plus explicit records of external effects:
send_calls lists every actual invocation of the sink, warnings the logger
output of output_to_db, jsdb the jobstate.log lines, and wf_notifications the
workflow-level notification-manager invocations. -/
structure Workflow where
  wf_uuid : String := ""
  sink : Option Sink := none
  database_disabled : Bool := false
  enable_notifications : Bool := true
  manager_present : Bool := false
  store_stdout_stderr : Bool := true
  jobs_map : String → Option Nat := fun _ => none
  jobs : List ((String × Nat) × Job) := []
  job_submit_seq : Nat := 1
  job_counters : List (String × Nat) := []
  job_info : String → Option JobInfo := fun _ => none
  line : Nat := 0
  last_processed_line : Nat := 0
  previous_processed_line : Nat := 0
  restart_count : Nat := 0
  dagman_condor_id : Option String := none
  current_timestamp : Int := 0
  dagman_exit_code : Option Int := none
  walltime : String → Option String := fun _ => none
  job_site : String → Option String := fun _ => none
  jsdb : List String := []
  send_calls : List (String × Kwargs) := []
  warnings : List String := []
  wf_notifications : List String := []

/-- Maximum byte length of stdout and stderr text sent to the database. -/
def MAX_OUTPUT_LENGTH : Nat := 2 ^ 16 - 1

/-- Embedding of Workflow.output_to_db: forward an event to the sink unless
the sink is absent or the database has been disabled; a failing send is logged
and permanently disables the database.  Python propagates no exception out of
this function, which the total Lean function mirrors. -/
def output_to_db (wf : Workflow) (event : String) (kwargs : Kwargs) : Workflow :=
  match wf.sink with
  | none => wf
  | some sink =>
    if wf.database_disabled then wf
    else
      let wf1 := { wf with send_calls := wf.send_calls ++ [(event, kwargs)] }
      if sink.send event kwargs then wf1
      else
        { wf1 with
          warnings := wf1.warnings ++
            ["NL-LOAD-ERROR --> " ++ wf.wf_uuid, "error sending event: " ++ event],
          database_disabled := true }

/-- Embedding of Workflow.check_notifications: notification processing is
skipped when notifications are disabled or when the current line is still
behind the progress of a previous daemon instance (recovery mode). -/
def check_notifications (wf : Workflow) : Bool :=
  if !wf.enable_notifications then false
  else if wf.line < wf.previous_processed_line then false
  else true

/-- Content of the monitord.info checkpoint as written by
Workflow.write_workflow_state: the submit-sequence counter, the larger of the
current and last processed line, the restart count, then every per-job counter
in insertion order. -/
def write_workflow_state_lines (wf : Workflow) : List (String × Nat) :=
  [("monitord_job_sequence", wf.job_submit_seq),
   ("monitord_dagman_out_sequence",
     if wf.line > wf.last_processed_line then wf.line else wf.last_processed_line),
   ("monitord_workflow_restart_count", wf.restart_count)]
  ++ wf.job_counters

/-- One line of Workflow.read_workflow_state: the three recognized keys update
the counters, and any other key becomes a per-job counter. -/
def read_state_step (w : Workflow) (kv : String × Nat) : Workflow :=
  if kv.1 = "monitord_job_sequence" then { w with job_submit_seq := kv.2 }
  else if kv.1 = "monitord_dagman_out_sequence" then { w with last_processed_line := kv.2 }
  else if kv.1 = "monitord_workflow_restart_count" then { w with restart_count := kv.2 }
  else { w with job_counters := updA w.job_counters kv.1 kv.2 }

/-- Embedding of Workflow.read_workflow_state applied to the already-split
key-value lines of the checkpoint file. -/
def read_workflow_state_lines (wf : Workflow) (lines : List (String × Nat)) : Workflow :=
  lines.foldl read_state_step wf

/-- Embedding of Workflow.read_workflow_progress: when the recovery-marker
file exists, the first line_processed entry becomes the previous instance's
progress. -/
def read_workflow_progress (wf : Workflow) (marker : Option (List (String × Nat))) : Workflow :=
  match marker with
  | none => wf
  | some ls =>
    match ls.find? (fun p => p.1 == "line_processed") with
    | some p => { wf with previous_processed_line := p.2 }
    | none => wf

/-- Embedding of Workflow.write_workflow_progress: the offset written to the
monitord.recover marker file, or none when the function returns without
writing because the current line is still behind the previous instance's
progress. -/
def write_workflow_progress (wf : Workflow) : Option Nat :=
  if wf.line < wf.previous_processed_line then none
  else some wf.line

/-- Embedding of the recovery fragment of Workflow.__init__: outside replay
mode the checkpoint and the recovery marker are read back, and when a previous
instance made any progress the effective starting offset resets to zero.
state_lines is the checkpoint file content when that file exists and marker
the recovery-marker file content when it exists. -/
def init_recover_state (wf : Workflow) (replay_mode : Bool)
    (state_lines : Option (List (String × Nat)))
    (marker : Option (List (String × Nat))) : Workflow :=
  if !replay_mode then
    let wf1 := match state_lines with
      | some ls => read_workflow_state_lines wf ls
      | none => wf
    let wf2 := read_workflow_progress wf1 marker
    if wf2.previous_processed_line ≠ 0 then { wf2 with last_processed_line := 0 } else wf2
  else wf

/-- Embedding of Workflow.find_jobid: the jobs map always holds the submit
sequence of the latest instance added for a job name. -/
def find_jobid (wf : Workflow) (jobid : String) : Option Nat :=
  wf.jobs_map jobid

/-- Embedding of Workflow.find_job_submit_seq: reuse the live instance when it
is in PRE_SCRIPT_SUCCESS or DAGMAN_SUBMIT state, or when the signal carries a
scheduler id equal to the instance's recorded one (out-of-order submit);
otherwise report that a new instance is needed. -/
def find_job_submit_seq (wf : Workflow) (jobid : String) (sched_id : Option String) : Option Nat :=
  match find_jobid wf jobid with
  | none => none
  | some seq =>
    match List.lookup (jobid, seq) wf.jobs with
    | none => none
    | some job =>
      if job.job_state = "PRE_SCRIPT_SUCCESS" ∨ job.job_state = "DAGMAN_SUBMIT" then some seq
      else
        match sched_id with
        | some sid => if job.sched_id = some sid then some seq else none
        | none => none

/-- Modelled from the spec: the Job constructor lives in
Pegasus.monitoring.job, which is not among the sources.  A fresh Job Instance
carries its identity triple and defaults everywhere else. -/
def mkJob (wf_uuid jobid : String) (seq : Nat) : Job :=
  { wf_uuid := wf_uuid, exec_job_id := jobid, job_submit_seq := seq }

/-- Tail of Workflow.add_job shared by both branches: when the new state is
SUBMIT the per-job-name counter is created at zero or incremented, and the
job's output counter takes its value. -/
def add_job_finish (wf : Workflow) (jobid : String) (seq : Nat) (job : Job)
    (job_state : String) : Workflow × Option Nat :=
  if job_state = "SUBMIT" then
    let c := match List.lookup jobid wf.job_counters with
      | some n => n + 1
      | none => 0
    ({ wf with job_counters := updA wf.job_counters jobid c,
               jobs := writeJob wf.jobs (jobid, seq) { job with job_output_counter := c } },
     some seq)
  else (wf, some seq)

/-- Embedding of Workflow.add_job: reuse the instance found by
find_job_submit_seq, updating its scheduler id, state and timestamp, or create
a fresh Job Instance under the current submit-sequence counter and increment
the counter. -/
def add_job (wf : Workflow) (jobid job_state : String) (sched_id : Option String) :
    Workflow × Option Nat :=
  match find_job_submit_seq wf jobid sched_id with
  | some seq =>
    match List.lookup (jobid, seq) wf.jobs with
    | none => (wf, none)
    | some job0 =>
      let job1 := { job0 with
                    sched_id := match sched_id with | some s => some s | none => job0.sched_id,
                    job_state := job_state,
                    job_state_timestamp := wf.current_timestamp }
      add_job_finish { wf with jobs := writeJob wf.jobs (jobid, seq) job1 } jobid seq job1 job_state
  | none =>
    let seq := wf.job_submit_seq
    if (List.lookup (jobid, seq) wf.jobs).isSome then (wf, none)
    else
      let job1 := { mkJob wf.wf_uuid jobid seq with
                    job_state := job_state,
                    job_state_timestamp := wf.current_timestamp,
                    sched_id := sched_id }
      let wf1 := { wf with jobs := ((jobid, seq), job1) :: wf.jobs,
                           jobs_map := updF wf.jobs_map jobid seq,
                           job_submit_seq := wf.job_submit_seq + 1 }
      add_job_finish wf1 jobid seq job1 job_state

/-- Modelled from the spec: Job.set_job_state lives in Pegasus.monitoring.job,
not among the sources.  Per the spec a transition overwrites the current state
and timestamp and increments the per-instance state-change sequence counter,
learning the scheduler id when the signal carries one. -/
def set_job_state (job : Job) (job_state : String) (sched_id : Option String)
    (timestamp : Int) : Job :=
  { job with job_state := job_state,
             job_state_timestamp := timestamp,
             job_state_seq := job.job_state_seq + 1,
             sched_id := match sched_id with | some s => some s | none => job.sched_id }

/-- Format of the jobstate.log line appended by Workflow.update_job_state. -/
def jsdb_line (ts : Int) (jobid job_state : String) (status : Option Int)
    (sched_id : Option String) (site : Option String) (walltime : Option String)
    (seq : Nat) : String :=
  toString ts ++ " " ++ jobid ++ " " ++ job_state ++ " " ++
    (match status with
     | some st => toString st
     | none =>
       match sched_id with
       | some sc => sc
       | none => "-") ++ " " ++
    (match site with | some s => s | none => "-") ++ " " ++
    (match walltime with | some w => w | none => "-") ++ " " ++ toString seq

/-- Embedding of Workflow.update_job_state in the configuration with no
database sink and notifications disabled, where the source returns right after
appending the jobstate.log line.  The resolution of a missing submit-sequence
number through the jobs map and the state overwrite are complete. -/
def update_job_state (wf : Workflow) (jobid : String) (sched_id : Option String)
    (job_submit_seq : Option Nat) (job_state : String) (status : Option Int)
    (walltime : Option String) : Workflow :=
  let seqOpt := match job_submit_seq with
    | none => wf.jobs_map jobid
    | some s => some s
  match seqOpt with
  | none => wf
  | some seq =>
    match List.lookup (jobid, seq) wf.jobs with
    | none => wf
    | some job =>
      let job1 := set_job_state job job_state sched_id wf.current_timestamp
      { wf with jobs := writeJob wf.jobs (jobid, seq) job1,
                jsdb := wf.jsdb ++
                  [jsdb_line wf.current_timestamp jobid job_state status job1.sched_id
                    job1.site_name walltime seq] }

/-- Predicate of Workflow.start_wf deciding which jobs to drop from the live
index: the post script succeeded, or the main job succeeded and the static
info records no post script for it. -/
def evict_entry (wf : Workflow) (p : (String × Nat) × Job) : Bool :=
  p.2.job_state == "POST_SCRIPT_SUCCESS" ||
    (p.2.job_state == "JOB_SUCCESS" &&
      match wf.job_info p.1.1 with
      | some info => info.post_exec.isNone
      | none => false)

/-- One deletion step of Workflow.start_wf: drop a finished job's entries from
the walltime, site, jobs-map and jobs tables. -/
def del_entry (w : Workflow) (k : String × Nat) : Workflow :=
  { w with walltime := eraseF w.walltime k.1,
           job_site := eraseF w.job_site k.1,
           jobs_map := eraseF w.jobs_map k.1,
           jobs := eraseJob w.jobs k }

/-- Embedding of Workflow.start_wf: collect the finished jobs and delete each
of them from the live tables. -/
def start_wf (wf : Workflow) : Workflow :=
  let jobs_to_delete := (wf.jobs.filter (fun p => evict_entry wf p)).map (fun p => p.1)
  jobs_to_delete.foldl del_entry wf

/-- Embedding of Workflow.db_send_wf_state: build the workflow-state event and
hand it to output_to_db; for the end state the status field carries the DAGMan
exit code, falling back to zero with an error level when it was never set. -/
def db_send_wf_state (wf : Workflow) (state : String) : Workflow :=
  match wf.sink with
  | none => wf
  | some _ =>
    let kwargs : Kwargs :=
      [("xwf__id", Value.vs wf.wf_uuid), ("ts", Value.vi wf.current_timestamp),
       ("restart_count", Value.vi ((wf.restart_count : Int) - 1))]
    let kwargs := if state = "end" then
        kwargs ++
          (match wf.dagman_exit_code with
           | some e => if e ≠ 0 then [("status", Value.vi e), ("level", Value.vs "Error")]
                       else [("status", Value.vi e)]
           | none => [("level", Value.vs "Error"), ("status", Value.vi 0)])
      else kwargs
    output_to_db wf ("xwf." ++ state) kwargs

/-- First phase of Workflow.change_wf_state: on the start state the DAGMan
start is logged to jobstate.log and the restart counter increments; on the end
state the DAGMan finish is logged. -/
def change_wf_state_log (wf : Workflow) (state : String) : Workflow :=
  if state = "start" then
    { wf with
      jsdb := wf.jsdb ++
        [toString wf.current_timestamp ++ " INTERNAL *** DAGMAN_STARTED " ++
          optStr wf.dagman_condor_id ++ " ***"],
      restart_count := wf.restart_count + 1 }
  else if state = "end" then
    { wf with
      jsdb := wf.jsdb ++
        [toString wf.current_timestamp ++ " INTERNAL *** DAGMAN_FINISHED " ++
          optIntStr wf.dagman_exit_code ++ " ***"] }
  else wf

/-- Second phase of Workflow.change_wf_state: workflow-level notifications run
when enabled and not suppressed by recovery mode.  The notification manager is
an external collaborator, so its invocation is recorded in wf_notifications. -/
def change_wf_state_notify (wf : Workflow) (state : String) : Workflow :=
  if check_notifications wf && wf.manager_present then
    { wf with wf_notifications := wf.wf_notifications ++ [state] }
  else wf

/-- Embedding of Workflow.change_wf_state: log the DAGMan transition, process
the workflow-level notifications, and send the state event to the database. -/
def change_wf_state (wf : Workflow) (state : String) : Workflow :=
  db_send_wf_state (change_wf_state_notify (change_wf_state_log wf state) state) state

/-- Modelled from the spec: on the controller (re)start signal the monitord
driver, which is not among the sources, calls start_wf to wipe finished jobs
and then change_wf_state with the start state. -/
def handle_dagman_started (wf : Workflow) : Workflow :=
  change_wf_state (start_wf wf) "start"

/-- Stdout block of Workflow.db_send_job_end: text longer than
MAX_OUTPUT_LENGTH is truncated to that length with a logged warning, and
shorter text passes through unchanged. -/
def stdout_text_part (job : Job) : Kwargs × List String :=
  match job.stdout_text with
  | some s =>
    if s.length > MAX_OUTPUT_LENGTH then
      ([("stdout__text", Value.vtext (s.take MAX_OUTPUT_LENGTH))],
       ["truncating stdout for job " ++ job.exec_job_id])
    else ([("stdout__text", Value.vtext s)], [])
  | none => ([], [])

/-- Stderr block of Workflow.db_send_job_end, mirroring the stdout block. -/
def stderr_text_part (job : Job) : Kwargs × List String :=
  match job.stderr_text with
  | some s =>
    if s.length > MAX_OUTPUT_LENGTH then
      ([("stderr__text", Value.vtext (s.take MAX_OUTPUT_LENGTH))],
       ["truncating stderr for job " ++ job.exec_job_id])
    else ([("stderr__text", Value.vtext s)], [])
  | none => ([], [])

/-- Embedding of the stdout and stderr portion of Workflow.db_send_job_end:
when storing stdout and stderr is enabled, both blocks contribute their event
fields and warnings; otherwise neither field is added. -/
def db_send_job_end_stdtext (wf : Workflow) (job : Job) : Kwargs × List String :=
  if wf.store_stdout_stderr then
    ((stdout_text_part job).1 ++ (stderr_text_part job).1,
     (stdout_text_part job).2 ++ (stderr_text_part job).2)
  else ([], [])

/-- Retry-counter bookkeeping of Workflow.has_subworkflow: the first encounter
of a base directory records counter zero, every later encounter increments the
stored counter; the second component is the counter value used for this
encounter. -/
def retry_counter_update (wf_retries : String → Option Nat) (dagman_dir : String) :
    (String → Option Nat) × Nat :=
  match wf_retries dagman_dir with
  | some r => (updF wf_retries dagman_dir (r + 1), r + 1)
  | none => (updF wf_retries dagman_dir 0, 0)

/-- Directory selection of Workflow.has_subworkflow: try the numbered
replanning directory, fall back to the .000 rescue directory, and give up with
none when neither exists on disk. -/
def retry_dir_select (dir_exists : String → Bool) (dagman_dir dagman_file : String)
    (my_retry : Nat) : Option String :=
  let retry_dir := dagman_dir ++ "." ++ fmt3 my_retry
  if !dir_exists retry_dir then
    let rescue_dir := dagman_dir ++ ".000"
    if !dir_exists rescue_dir then none
    else some (rescue_dir ++ "/" ++ dagman_file)
  else some (retry_dir ++ "/" ++ dagman_file)

/-- Embedding of the retry-directory resolution at the end of
Workflow.has_subworkflow, for the case where the caller supplies a persistent
retry-counter map.  dir_exists stands for the os.path.isdir oracle; the result
is the updated counter map together with the resolved dagman.out path. -/
def has_subworkflow_retry_dir (dir_exists : String → Bool)
    (wf_retries : String → Option Nat) (dagman_dir dagman_file : String) :
    (String → Option Nat) × Option String :=
  ((retry_counter_update wf_retries dagman_dir).1,
   retry_dir_select dir_exists dagman_dir dagman_file
     (retry_counter_update wf_retries dagman_dir).2)

/-- Fresh Workflow state as set up by Workflow.__init__ before any recovery,
keeping the daemon-level configuration. -/
def init_workflow (wf_uuid : String) (sink : Option Sink)
    (enable_notifications manager_present store_stdout_stderr : Bool) : Workflow :=
  { wf_uuid := wf_uuid, sink := sink, enable_notifications := enable_notifications,
    manager_present := manager_present, store_stdout_stderr := store_stdout_stderr }

/-- Clean stop and start of the monitoring daemon: the checkpoint written by
write_workflow_state is read back through read_workflow_state in a fresh
Workflow, as Workflow.__init__ does after a restart. -/
def restart_wf (wf : Workflow) : Workflow :=
  read_workflow_state_lines
    (init_workflow wf.wf_uuid wf.sink wf.enable_notifications wf.manager_present
      wf.store_stdout_stderr)
    (write_workflow_state_lines wf)

/-- Signals and daemon events driving the per-workflow state, as delivered by
the external tokenizer and driver. -/
inductive Op where
  | addJob (jobid job_state : String) (sched_id : Option String)
  | updateJob (jobid : String) (sched_id : Option String) (seq : Option Nat)
      (job_state : String) (status : Option Int) (walltime : Option String)
  | startWf
  | restart

/-- One step of the trace machine, together with the ghost history of created
job instances in creation order: an addJob signal that increments the
submit-sequence counter has created the instance numbered with the counter's
previous value. -/
def stepOp (s : Workflow × List (String × Nat)) (op : Op) : Workflow × List (String × Nat) :=
  match op with
  | .addJob jobid st sid =>
    let r := add_job s.1 jobid st sid
    if r.1.job_submit_seq = s.1.job_submit_seq then (r.1, s.2)
    else (r.1, s.2 ++ [(jobid, s.1.job_submit_seq)])
  | .updateJob jobid sid seq st status wt => (update_job_state s.1 jobid sid seq st status wt, s.2)
  | .startWf => (start_wf s.1, s.2)
  | .restart => (restart_wf s.1, s.2)

/-- Run a list of operations from a fresh workflow. -/
def runOps (init : Workflow) (ops : List Op) : Workflow × List (String × Nat) :=
  ops.foldl stepOp (init, [])

/-- Submit sequence of the most recently created instance of a job name in the
ghost creation history. -/
def latestCreated (h : List (String × Nat)) (jobid : String) : Option Nat :=
  match (h.filter (fun p => p.1 == jobid)).getLast? with
  | some p => some p.2
  | none => none

/-- Reserved keys of the monitord.info checkpoint file. -/
def reservedKey (k : String) : Bool :=
  k == "monitord_job_sequence" || k == "monitord_dagman_out_sequence" ||
    k == "monitord_workflow_restart_count"

/-- Well-formedness of a signal: the tokenizer never delivers a job whose name
collides with a reserved checkpoint key. -/
def goodOp : Op → Bool
  | .addJob jobid _ _ => !(reservedKey jobid)
  | _ => true

/-- Modelled from the spec: the fully-terminal job states per the spec's state
machine section are POST_SCRIPT_SUCCESS, POST_SCRIPT_FAILURE, and JOB_SUCCESS
or JOB_FAILURE when the job's static info indicates no post script. -/
def spec_fully_terminal (wf : Workflow) (jobid : String) (job : Job) : Bool :=
  job.job_state == "POST_SCRIPT_SUCCESS" || job.job_state == "POST_SCRIPT_FAILURE" ||
    ((job.job_state == "JOB_SUCCESS" || job.job_state == "JOB_FAILURE") &&
      match wf.job_info jobid with
      | some info => info.post_exec.isNone
      | none => true)

/-- Invariant of the trace machine tying the live jobs map to the ghost
creation history: the map points at the most recently created instance of each
name, every created sequence number is below the counter, the history's
sequence numbers strictly increase, and no job counter uses a reserved
checkpoint key. -/
def TraceInv (s : Workflow × List (String × Nat)) : Prop :=
  (∀ jobid seq, s.1.jobs_map jobid = some seq → latestCreated s.2 jobid = some seq) ∧
  (∀ p ∈ s.2, p.2 < s.1.job_submit_seq) ∧
  List.Pairwise (fun a b => a.2 < b.2) s.2 ∧
  (∀ p ∈ s.1.job_counters, reservedKey p.1 = false)

/-- Sink that always raises, for the fail-open witness. -/
def failSink : Sink := { send := fun _ _ => false }

/-- Workflow connected to the always-failing sink. -/
def c4wf : Workflow := { sink := some failSink }

/-- Workflow state after the recovery fragment of the constructor ran with a
recovery marker recording offset five. -/
def c3wf : Workflow :=
  init_recover_state { enable_notifications := true } false none (some [("line_processed", 5)])

/-- Job instance sitting in PRE_SCRIPT_SUCCESS with scheduler id 100. -/
def c2job : Job :=
  { wf_uuid := "", exec_job_id := "A", job_submit_seq := 1,
    sched_id := some "100", job_state := "PRE_SCRIPT_SUCCESS" }

/-- Workflow holding the live instance (A, 1) in PRE_SCRIPT_SUCCESS state. -/
def c2wf : Workflow :=
  { jobs_map := updF (fun _ => none) "A" 1, jobs := [(("A", 1), c2job)], job_submit_seq := 2 }

/-- Job instance resting in the fully-terminal POST_SCRIPT_FAILURE state. -/
def c5job : Job :=
  { wf_uuid := "", exec_job_id := "A", job_submit_seq := 1, job_state := "POST_SCRIPT_FAILURE" }

/-- Workflow holding the failed-terminal instance (A, 1), whose static info
records a post script. -/
def c5wf : Workflow :=
  { jobs_map := updF (fun _ => none) "A" 1, jobs := [(("A", 1), c5job)], job_submit_seq := 2,
    job_info := updF (fun _ => none) "A" { post_exec := some "post.sh" } }

/-- Job instance already past submission (EXECUTE) with scheduler id 100. -/
def w2job : Job :=
  { wf_uuid := "", exec_job_id := "B", job_submit_seq := 3,
    sched_id := some "100", job_state := "EXECUTE" }

/-- Workflow holding the executing instance (B, 3). -/
def w2wf : Workflow :=
  { jobs_map := updF (fun _ => none) "B" 3, jobs := [(("B", 3), w2job)], job_submit_seq := 4 }

/-- Job instance resting in POST_SCRIPT_SUCCESS, due for eviction. -/
def w5job : Job :=
  { wf_uuid := "", exec_job_id := "C", job_submit_seq := 2, job_state := "POST_SCRIPT_SUCCESS" }

/-- Workflow holding the successfully finished instance (C, 2). -/
def w5wf : Workflow :=
  { jobs_map := updF (fun _ => none) "C" 2, jobs := [(("C", 2), w5job)], job_submit_seq := 3 }

/-- Job whose captured stdout is one character longer than the database can
take. -/
def w7job : Job :=
  { wf_uuid := "", exec_job_id := "D", job_submit_seq := 1,
    stdout_text := some (List.replicate 65536 'x') }

/-- Directory-existence oracle where only w.001 exists. -/
def w8fs : String → Bool := fun s => s == "w.001"

/-- Retry-counter map that has seen base directory w once already. -/
def w8retries : String → Option Nat := fun s => if s = "w" then some 0 else none

/-! Helper lemmas about the association-list and map operations. -/

theorem lookup_cons_if {α β : Type} [BEq α] (a k : α) (v : β) (l : List (α × β)) :
    List.lookup a ((k, v) :: l) = if a == k then some v else List.lookup a l := by
  cases h : a == k <;> simp [List.lookup_cons, h]

theorem writeJob_cons (pk : String × Nat) (pv : Job) (t : List ((String × Nat) × Job))
    (k : String × Nat) (j : Job) :
    writeJob ((pk, pv) :: t) k j =
      (if pk == k then (pk, j) else (pk, pv)) :: writeJob t k j := rfl

theorem lookup_writeJob_ne (l : List ((String × Nat) × Job)) (k k2 : String × Nat) (j : Job)
    (h : k2 ≠ k) : List.lookup k2 (writeJob l k j) = List.lookup k2 l := by
  induction l with
  | nil => rfl
  | cons p t ih =>
    obtain ⟨pk, pv⟩ := p
    rw [writeJob_cons]
    by_cases hpk : pk = k
    · subst hpk
      have h2 : (k2 == pk) = false := beq_eq_false_iff_ne.mpr h
      simp [lookup_cons_if, h2, ih]
    · have h1 : (pk == k) = false := beq_eq_false_iff_ne.mpr hpk
      rw [if_neg (by simp [h1])]
      rw [lookup_cons_if, lookup_cons_if]
      cases hk2 : k2 == pk <;> simp [hk2, ih]

theorem lookup_writeJob_self (l : List ((String × Nat) × Job)) (k : String × Nat) (j : Job) :
    List.lookup k (writeJob l k j) =
      if (List.lookup k l).isSome then some j else none := by
  induction l with
  | nil => rfl
  | cons p t ih =>
    obtain ⟨pk, pv⟩ := p
    rw [writeJob_cons]
    by_cases hpk : pk = k
    · subst hpk
      have hself : (pk == pk) = true := beq_self_eq_true pk
      rw [if_pos hself, lookup_cons_if, lookup_cons_if, if_pos hself, if_pos hself]
      rfl
    · have h1 : (pk == k) = false := beq_eq_false_iff_ne.mpr hpk
      have h2 : (k == pk) = false := beq_eq_false_iff_ne.mpr (Ne.symm hpk)
      rw [if_neg (by simp [h1])]
      rw [lookup_cons_if, lookup_cons_if]
      simp only [h2, Bool.false_eq_true, if_false]
      exact ih

theorem eraseJob_cons (pk : String × Nat) (pv : Job) (t : List ((String × Nat) × Job))
    (k : String × Nat) :
    eraseJob ((pk, pv) :: t) k =
      if pk == k then eraseJob t k else (pk, pv) :: eraseJob t k := by
  cases h : pk == k <;> simp [eraseJob, List.filter_cons, h]

theorem lookup_eraseJob_self (l : List ((String × Nat) × Job)) (k : String × Nat) :
    List.lookup k (eraseJob l k) = none := by
  induction l with
  | nil => rfl
  | cons p t ih =>
    obtain ⟨pk, pv⟩ := p
    rw [eraseJob_cons]
    by_cases hpk : pk = k
    · subst hpk
      rw [if_pos (beq_self_eq_true pk)]
      exact ih
    · have h1 : (pk == k) = false := beq_eq_false_iff_ne.mpr hpk
      have h2 : (k == pk) = false := beq_eq_false_iff_ne.mpr (Ne.symm hpk)
      rw [if_neg (by simp [h1]), lookup_cons_if]
      simp [h2, ih]

theorem lookup_eraseJob_ne (l : List ((String × Nat) × Job)) (k k2 : String × Nat)
    (h : k2 ≠ k) : List.lookup k2 (eraseJob l k) = List.lookup k2 l := by
  induction l with
  | nil => rfl
  | cons p t ih =>
    obtain ⟨pk, pv⟩ := p
    rw [eraseJob_cons]
    by_cases hpk : pk = k
    · subst hpk
      have h2 : (k2 == pk) = false := beq_eq_false_iff_ne.mpr h
      rw [if_pos (beq_self_eq_true pk), ih, lookup_cons_if]
      simp [h2]
    · have h1 : (pk == k) = false := beq_eq_false_iff_ne.mpr hpk
      rw [if_neg (by simp [h1]), lookup_cons_if, lookup_cons_if]
      cases hk2 : k2 == pk <;> simp [hk2, ih]

theorem updA_pred (P : String → Prop) (l : List (String × Nat)) (k : String) (v : Nat)
    (hl : ∀ p ∈ l, P p.1) (hk : P k) : ∀ p ∈ updA l k v, P p.1 := by
  intro p hp
  unfold updA at hp
  split at hp
  · obtain ⟨q, hq, hfq⟩ := List.mem_map.mp hp
    by_cases hqk : (q.1 == k) = true
    · rw [if_pos hqk] at hfq
      have : p.1 = q.1 := by rw [← hfq]
      rw [this]; exact hl q hq
    · rw [if_neg hqk] at hfq
      rw [← hfq]; exact hl q hq
  · rcases List.mem_append.mp hp with hin | hin
    · exact hl p hin
    · rcases List.mem_singleton.mp hin with rfl
      exact hk

theorem latestCreated_append_self (h : List (String × Nat)) (j : String) (c : Nat) :
    latestCreated (h ++ [(j, c)]) j = some c := by
  unfold latestCreated
  rw [List.filter_append]
  have : List.filter (fun p => p.1 == j) [(j, c)] = [(j, c)] := by simp
  rw [this, List.getLast?_concat]

theorem latestCreated_append_ne (h : List (String × Nat)) (j n : String) (c : Nat)
    (hne : j ≠ n) : latestCreated (h ++ [(j, c)]) n = latestCreated h n := by
  unfold latestCreated
  rw [List.filter_append]
  have : List.filter (fun p => p.1 == n) [(j, c)] = [] := by
    simp [beq_eq_false_iff_ne.mpr hne]
  rw [this, List.append_nil]

/-! Preservation lemmas for the checkpoint reader. -/

theorem reservedKey_false_iff (k : String) :
    reservedKey k = false ↔
      k ≠ "monitord_job_sequence" ∧ k ≠ "monitord_dagman_out_sequence" ∧
        k ≠ "monitord_workflow_restart_count" := by
  simp [reservedKey, and_assoc]

theorem read_state_step_preserves (w : Workflow) (kv : String × Nat) :
    (read_state_step w kv).jobs = w.jobs ∧
    (read_state_step w kv).jobs_map = w.jobs_map ∧
    (read_state_step w kv).previous_processed_line = w.previous_processed_line ∧
    (read_state_step w kv).enable_notifications = w.enable_notifications := by
  unfold read_state_step
  by_cases h1 : kv.1 = "monitord_job_sequence"
  · rw [if_pos h1]; exact ⟨rfl, rfl, rfl, rfl⟩
  · rw [if_neg h1]
    by_cases h2 : kv.1 = "monitord_dagman_out_sequence"
    · rw [if_pos h2]; exact ⟨rfl, rfl, rfl, rfl⟩
    · rw [if_neg h2]
      by_cases h3 : kv.1 = "monitord_workflow_restart_count"
      · rw [if_pos h3]; exact ⟨rfl, rfl, rfl, rfl⟩
      · rw [if_neg h3]; exact ⟨rfl, rfl, rfl, rfl⟩

theorem read_state_step_counter_ne (w : Workflow) (kv : String × Nat)
    (h : kv.1 ≠ "monitord_job_sequence") :
    (read_state_step w kv).job_submit_seq = w.job_submit_seq := by
  unfold read_state_step
  rw [if_neg h]
  by_cases h2 : kv.1 = "monitord_dagman_out_sequence"
  · rw [if_pos h2]
  · rw [if_neg h2]
    by_cases h3 : kv.1 = "monitord_workflow_restart_count"
    · rw [if_pos h3]
    · rw [if_neg h3]

theorem read_state_step_counters_pred (P : String → Prop) (w : Workflow) (kv : String × Nat)
    (hw : ∀ p ∈ w.job_counters, P p.1) (hkv : reservedKey kv.1 = true ∨ P kv.1) :
    ∀ p ∈ (read_state_step w kv).job_counters, P p.1 := by
  unfold read_state_step
  by_cases h1 : kv.1 = "monitord_job_sequence"
  · rw [if_pos h1]; exact hw
  · rw [if_neg h1]
    by_cases h2 : kv.1 = "monitord_dagman_out_sequence"
    · rw [if_pos h2]; exact hw
    · rw [if_neg h2]
      by_cases h3 : kv.1 = "monitord_workflow_restart_count"
      · rw [if_pos h3]; exact hw
      · rw [if_neg h3]
        rcases hkv with hres | hP
        · have hfalse := (reservedKey_false_iff kv.1).mpr ⟨h1, h2, h3⟩
          rw [hres] at hfalse
          exact Bool.noConfusion hfalse
        · exact updA_pred P w.job_counters kv.1 kv.2 hw hP

theorem read_state_fold_preserves (lines : List (String × Nat)) (w : Workflow) :
    (read_workflow_state_lines w lines).jobs = w.jobs ∧
    (read_workflow_state_lines w lines).jobs_map = w.jobs_map ∧
    (read_workflow_state_lines w lines).previous_processed_line = w.previous_processed_line ∧
    (read_workflow_state_lines w lines).enable_notifications = w.enable_notifications := by
  induction lines generalizing w with
  | nil => exact ⟨rfl, rfl, rfl, rfl⟩
  | cons kv t ih =>
    have e : read_workflow_state_lines w (kv :: t) =
        read_workflow_state_lines (read_state_step w kv) t := rfl
    rw [e]
    obtain ⟨a, b, c, d⟩ := ih (read_state_step w kv)
    obtain ⟨a2, b2, c2, d2⟩ := read_state_step_preserves w kv
    exact ⟨a.trans a2, b.trans b2, c.trans c2, d.trans d2⟩

theorem read_state_fold_counter_ne (lines : List (String × Nat)) (w : Workflow)
    (h : ∀ p ∈ lines, p.1 ≠ "monitord_job_sequence") :
    (read_workflow_state_lines w lines).job_submit_seq = w.job_submit_seq := by
  induction lines generalizing w with
  | nil => rfl
  | cons kv t ih =>
    have e : read_workflow_state_lines w (kv :: t) =
        read_workflow_state_lines (read_state_step w kv) t := rfl
    rw [e]
    rw [ih (read_state_step w kv) (fun p hp => h p (List.mem_cons_of_mem _ hp))]
    exact read_state_step_counter_ne w kv (h kv (List.mem_cons_self _ _))

theorem read_state_fold_counters_pred (P : String → Prop) (lines : List (String × Nat))
    (w : Workflow) (hw : ∀ p ∈ w.job_counters, P p.1)
    (hl : ∀ p ∈ lines, reservedKey p.1 = true ∨ P p.1) :
    ∀ p ∈ (read_workflow_state_lines w lines).job_counters, P p.1 := by
  induction lines generalizing w with
  | nil => exact hw
  | cons kv t ih =>
    have e : read_workflow_state_lines w (kv :: t) =
        read_workflow_state_lines (read_state_step w kv) t := rfl
    rw [e]
    exact ih (read_state_step w kv)
      (read_state_step_counters_pred P w kv hw (hl kv (List.mem_cons_self _ _)))
      (fun p hp => hl p (List.mem_cons_of_mem _ hp))

theorem restart_wf_facts (wf : Workflow)
    (h : ∀ p ∈ wf.job_counters, reservedKey p.1 = false) :
    (restart_wf wf).job_submit_seq = wf.job_submit_seq ∧
    (restart_wf wf).jobs = ([] : List ((String × Nat) × Job)) ∧
    (restart_wf wf).jobs_map = (fun _ => none) ∧
    (∀ p ∈ (restart_wf wf).job_counters, reservedKey p.1 = false) := by
  have e : restart_wf wf =
      read_workflow_state_lines
        (read_workflow_state_lines
          (init_workflow wf.wf_uuid wf.sink wf.enable_notifications wf.manager_present
            wf.store_stdout_stderr)
          [("monitord_job_sequence", wf.job_submit_seq),
           ("monitord_dagman_out_sequence",
             if wf.line > wf.last_processed_line then wf.line else wf.last_processed_line),
           ("monitord_workflow_restart_count", wf.restart_count)])
        wf.job_counters := by
    unfold restart_wf write_workflow_state_lines read_workflow_state_lines
    rw [List.foldl_append]
  set mid := read_workflow_state_lines
      (init_workflow wf.wf_uuid wf.sink wf.enable_notifications wf.manager_present
        wf.store_stdout_stderr)
      [("monitord_job_sequence", wf.job_submit_seq),
       ("monitord_dagman_out_sequence",
         if wf.line > wf.last_processed_line then wf.line else wf.last_processed_line),
       ("monitord_workflow_restart_count", wf.restart_count)] with hmid
  have hmid_seq : mid.job_submit_seq = wf.job_submit_seq := by
    rw [hmid]
    simp [read_workflow_state_lines, read_state_step]
  have hmid_jobs : mid.jobs = ([] : List ((String × Nat) × Job)) := by
    rw [hmid]
    simp [read_workflow_state_lines, read_state_step, init_workflow]
  have hmid_map : mid.jobs_map = (fun _ => none) := by
    rw [hmid]
    simp [read_workflow_state_lines, read_state_step, init_workflow]
  have hmid_counters : mid.job_counters = ([] : List (String × Nat)) := by
    rw [hmid]
    simp [read_workflow_state_lines, read_state_step, init_workflow]
  have hne : ∀ p ∈ wf.job_counters, p.1 ≠ "monitord_job_sequence" := by
    intro p hp
    exact ((reservedKey_false_iff p.1).mp (h p hp)).1
  refine ⟨?_, ?_, ?_, ?_⟩
  · rw [e, read_state_fold_counter_ne wf.job_counters mid hne, hmid_seq]
  · rw [e]
    exact ((read_state_fold_preserves wf.job_counters mid).1).trans hmid_jobs
  · rw [e]
    exact ((read_state_fold_preserves wf.job_counters mid).2.1).trans hmid_map
  · rw [e]
    apply read_state_fold_counters_pred (fun k => reservedKey k = false) wf.job_counters mid
    · rw [hmid_counters]
      intro p hp
      cases hp
    · intro p hp
      exact Or.inr (h p hp)

/-! Preservation lemmas for the deletion fold of start_wf. -/

theorem foldl_del_preserves (ks : List (String × Nat)) (w : Workflow) :
    (ks.foldl del_entry w).job_submit_seq = w.job_submit_seq ∧
    (ks.foldl del_entry w).job_counters = w.job_counters ∧
    (ks.foldl del_entry w).restart_count = w.restart_count := by
  induction ks generalizing w with
  | nil => exact ⟨rfl, rfl, rfl⟩
  | cons k t ih =>
    rw [List.foldl_cons]
    exact ih (del_entry w k)

theorem foldl_del_tables_or (ks : List (String × Nat)) (w : Workflow) (n : String) :
    ((ks.foldl del_entry w).jobs_map n = none ∨
      (ks.foldl del_entry w).jobs_map n = w.jobs_map n) ∧
    ((ks.foldl del_entry w).walltime n = none ∨
      (ks.foldl del_entry w).walltime n = w.walltime n) ∧
    ((ks.foldl del_entry w).job_site n = none ∨
      (ks.foldl del_entry w).job_site n = w.job_site n) := by
  induction ks generalizing w with
  | nil => exact ⟨Or.inr rfl, Or.inr rfl, Or.inr rfl⟩
  | cons k t ih =>
    rw [List.foldl_cons]
    obtain ⟨a, b, c⟩ := ih (del_entry w k)
    by_cases hn : n = k.1
    · refine ⟨?_, ?_, ?_⟩
      · rcases a with h2 | h2
        · exact Or.inl h2
        · left
          rw [h2]
          simp [del_entry, eraseF, hn]
      · rcases b with h2 | h2
        · exact Or.inl h2
        · left
          rw [h2]
          simp [del_entry, eraseF, hn]
      · rcases c with h2 | h2
        · exact Or.inl h2
        · left
          rw [h2]
          simp [del_entry, eraseF, hn]
    · refine ⟨?_, ?_, ?_⟩
      · rcases a with h2 | h2
        · exact Or.inl h2
        · right
          rw [h2]
          simp [del_entry, eraseF, hn]
      · rcases b with h2 | h2
        · exact Or.inl h2
        · right
          rw [h2]
          simp [del_entry, eraseF, hn]
      · rcases c with h2 | h2
        · exact Or.inl h2
        · right
          rw [h2]
          simp [del_entry, eraseF, hn]

theorem foldl_del_tables_mem (ks : List (String × Nat)) (w : Workflow) (n : String)
    (h : ∃ k ∈ ks, k.1 = n) :
    (ks.foldl del_entry w).jobs_map n = none ∧
    (ks.foldl del_entry w).walltime n = none ∧
    (ks.foldl del_entry w).job_site n = none := by
  induction ks generalizing w with
  | nil =>
    rcases h with ⟨k, hk, _⟩
    cases hk
  | cons k t ih =>
    rw [List.foldl_cons]
    by_cases hkt : ∃ k2 ∈ t, k2.1 = n
    · exact ih (del_entry w k) hkt
    · rcases h with ⟨k0, hk0, hk0n⟩
      rcases List.mem_cons.mp hk0 with rfl | hmem
      · have base_map : (del_entry w k0).jobs_map n = none := by
          simp [del_entry, eraseF, hk0n]
        have base_wt : (del_entry w k0).walltime n = none := by
          simp [del_entry, eraseF, hk0n]
        have base_js : (del_entry w k0).job_site n = none := by
          simp [del_entry, eraseF, hk0n]
        obtain ⟨a, b, c⟩ := foldl_del_tables_or t (del_entry w k0) n
        refine ⟨?_, ?_, ?_⟩
        · rcases a with h2 | h2
          · exact h2
          · rw [h2, base_map]
        · rcases b with h2 | h2
          · exact h2
          · rw [h2, base_wt]
        · rcases c with h2 | h2
          · exact h2
          · rw [h2, base_js]
      · exact absurd ⟨k0, hmem, hk0n⟩ hkt

theorem foldl_del_jobs_lookup_or (ks : List (String × Nat)) (w : Workflow) (k : String × Nat) :
    List.lookup k (ks.foldl del_entry w).jobs = none ∨
    List.lookup k (ks.foldl del_entry w).jobs = List.lookup k w.jobs := by
  induction ks generalizing w with
  | nil => exact Or.inr rfl
  | cons k0 t ih =>
    rw [List.foldl_cons]
    rcases ih (del_entry w k0) with h | h
    · exact Or.inl h
    · rw [h]
      by_cases hk : k = k0
      · subst hk
        left
        exact lookup_eraseJob_self w.jobs k
      · right
        exact lookup_eraseJob_ne w.jobs k0 k hk

theorem foldl_del_jobs_lookup_mem (ks : List (String × Nat)) (w : Workflow) (k : String × Nat)
    (h : k ∈ ks) : List.lookup k (ks.foldl del_entry w).jobs = none := by
  induction ks generalizing w with
  | nil => cases h
  | cons k0 t ih =>
    rw [List.foldl_cons]
    rcases List.mem_cons.mp h with rfl | hmem
    · rcases foldl_del_jobs_lookup_or t (del_entry w k) k with h2 | h2
      · exact h2
      · rw [h2]
        exact lookup_eraseJob_self w.jobs k
    · exact ih (del_entry w k0) hmem

theorem foldl_del_jobs_lookup_not_mem (ks : List (String × Nat)) (w : Workflow)
    (k : String × Nat) (h : k ∉ ks) :
    List.lookup k (ks.foldl del_entry w).jobs = List.lookup k w.jobs := by
  induction ks generalizing w with
  | nil => rfl
  | cons k0 t ih =>
    rw [List.foldl_cons]
    have hk0 : k ≠ k0 := by
      intro e
      subst e
      exact h (List.mem_cons_self _ _)
    rw [ih (del_entry w k0) (fun hm => h (List.mem_cons_of_mem _ hm))]
    exact lookup_eraseJob_ne w.jobs k0 k hk0

/-! Frame lemmas for the event-sending functions. -/

theorem output_to_db_preserves (wf : Workflow) (event : String) (kwargs : Kwargs) :
    (output_to_db wf event kwargs).jobs = wf.jobs ∧
    (output_to_db wf event kwargs).jobs_map = wf.jobs_map ∧
    (output_to_db wf event kwargs).walltime = wf.walltime ∧
    (output_to_db wf event kwargs).job_site = wf.job_site ∧
    (output_to_db wf event kwargs).restart_count = wf.restart_count ∧
    (output_to_db wf event kwargs).job_submit_seq = wf.job_submit_seq ∧
    (output_to_db wf event kwargs).job_counters = wf.job_counters := by
  unfold output_to_db
  split
  · exact ⟨rfl, rfl, rfl, rfl, rfl, rfl, rfl⟩
  · split
    · exact ⟨rfl, rfl, rfl, rfl, rfl, rfl, rfl⟩
    · split
      · exact ⟨rfl, rfl, rfl, rfl, rfl, rfl, rfl⟩
      · exact ⟨rfl, rfl, rfl, rfl, rfl, rfl, rfl⟩

theorem db_send_wf_state_preserves (wf : Workflow) (st : String) :
    (db_send_wf_state wf st).jobs = wf.jobs ∧
    (db_send_wf_state wf st).jobs_map = wf.jobs_map ∧
    (db_send_wf_state wf st).walltime = wf.walltime ∧
    (db_send_wf_state wf st).job_site = wf.job_site ∧
    (db_send_wf_state wf st).restart_count = wf.restart_count ∧
    (db_send_wf_state wf st).job_submit_seq = wf.job_submit_seq ∧
    (db_send_wf_state wf st).job_counters = wf.job_counters := by
  unfold db_send_wf_state
  split
  · exact ⟨rfl, rfl, rfl, rfl, rfl, rfl, rfl⟩
  · exact output_to_db_preserves wf _ _

theorem change_wf_state_facts (wf : Workflow) (st : String) :
    (change_wf_state wf st).jobs = wf.jobs ∧
    (change_wf_state wf st).jobs_map = wf.jobs_map ∧
    (change_wf_state wf st).walltime = wf.walltime ∧
    (change_wf_state wf st).job_site = wf.job_site ∧
    (change_wf_state wf st).restart_count =
      (if st = "start" then wf.restart_count + 1 else wf.restart_count) ∧
    (change_wf_state wf st).job_submit_seq = wf.job_submit_seq ∧
    (change_wf_state wf st).job_counters = wf.job_counters := by
  have hlog :
      (change_wf_state_log wf st).jobs = wf.jobs ∧
      (change_wf_state_log wf st).jobs_map = wf.jobs_map ∧
      (change_wf_state_log wf st).walltime = wf.walltime ∧
      (change_wf_state_log wf st).job_site = wf.job_site ∧
      (change_wf_state_log wf st).restart_count =
        (if st = "start" then wf.restart_count + 1 else wf.restart_count) ∧
      (change_wf_state_log wf st).job_submit_seq = wf.job_submit_seq ∧
      (change_wf_state_log wf st).job_counters = wf.job_counters := by
    unfold change_wf_state_log
    by_cases h1 : st = "start"
    · rw [if_pos h1, if_pos h1]
      exact ⟨rfl, rfl, rfl, rfl, rfl, rfl, rfl⟩
    · rw [if_neg h1, if_neg h1]
      by_cases h2 : st = "end"
      · rw [if_pos h2]
        exact ⟨rfl, rfl, rfl, rfl, rfl, rfl, rfl⟩
      · rw [if_neg h2]
        exact ⟨rfl, rfl, rfl, rfl, rfl, rfl, rfl⟩
  have hnot : ∀ w : Workflow,
      (change_wf_state_notify w st).jobs = w.jobs ∧
      (change_wf_state_notify w st).jobs_map = w.jobs_map ∧
      (change_wf_state_notify w st).walltime = w.walltime ∧
      (change_wf_state_notify w st).job_site = w.job_site ∧
      (change_wf_state_notify w st).restart_count = w.restart_count ∧
      (change_wf_state_notify w st).job_submit_seq = w.job_submit_seq ∧
      (change_wf_state_notify w st).job_counters = w.job_counters := by
    intro w
    unfold change_wf_state_notify
    split
    · exact ⟨rfl, rfl, rfl, rfl, rfl, rfl, rfl⟩
    · exact ⟨rfl, rfl, rfl, rfl, rfl, rfl, rfl⟩
  obtain ⟨a1, b1, c1, d1, e1, f1, g1⟩ := hlog
  obtain ⟨a2, b2, c2, d2, e2, f2, g2⟩ := hnot (change_wf_state_log wf st)
  obtain ⟨a3, b3, c3, d3, e3, f3, g3⟩ :=
    db_send_wf_state_preserves (change_wf_state_notify (change_wf_state_log wf st) st) st
  exact ⟨(a3.trans a2).trans a1, (b3.trans b2).trans b1, (c3.trans c2).trans c1,
    (d3.trans d2).trans d1, (e3.trans e2).trans e1, (f3.trans f2).trans f1,
    (g3.trans g2).trans g1⟩

/-! Structural lemmas about add_job and update_job_state. -/

theorem add_job_finish_facts (wf : Workflow) (jobid : String) (seq : Nat) (job : Job)
    (st : String) :
    (add_job_finish wf jobid seq job st).1.job_submit_seq = wf.job_submit_seq ∧
    (add_job_finish wf jobid seq job st).1.jobs_map = wf.jobs_map ∧
    (add_job_finish wf jobid seq job st).2 = some seq ∧
    ((add_job_finish wf jobid seq job st).1.job_counters = wf.job_counters ∨
      ∃ v, (add_job_finish wf jobid seq job st).1.job_counters = updA wf.job_counters jobid v) := by
  unfold add_job_finish
  split
  · exact ⟨rfl, rfl, rfl, Or.inr ⟨_, rfl⟩⟩
  · exact ⟨rfl, rfl, rfl, Or.inl rfl⟩

theorem add_job_cases (wf : Workflow) (jobid st : String) (sid : Option String) :
    ((add_job wf jobid st sid).1.job_submit_seq = wf.job_submit_seq ∧
      (add_job wf jobid st sid).1.jobs_map = wf.jobs_map) ∨
    ((add_job wf jobid st sid).1.job_submit_seq = wf.job_submit_seq + 1 ∧
      (add_job wf jobid st sid).1.jobs_map = updF wf.jobs_map jobid wf.job_submit_seq ∧
      (add_job wf jobid st sid).2 = some wf.job_submit_seq) := by
  simp only [add_job]
  split
  · split
    · exact Or.inl ⟨rfl, rfl⟩
    · left
      obtain ⟨a, b, c, d⟩ := add_job_finish_facts _ jobid _ _ st
      exact ⟨a, b⟩
  · split
    · exact Or.inl ⟨rfl, rfl⟩
    · right
      obtain ⟨a, b, c, d⟩ := add_job_finish_facts _ jobid wf.job_submit_seq _ st
      exact ⟨a, b, c⟩

theorem add_job_counters_pred (P : String → Prop) (wf : Workflow) (jobid st : String)
    (sid : Option String) (hw : ∀ p ∈ wf.job_counters, P p.1) (hj : P jobid) :
    ∀ p ∈ (add_job wf jobid st sid).1.job_counters, P p.1 := by
  simp only [add_job]
  split
  · split
    · exact hw
    · obtain ⟨a, b, c, d⟩ := add_job_finish_facts _ jobid _ _ st
      rcases d with hsame | ⟨v, hupd⟩
      · rw [hsame]; exact hw
      · rw [hupd]; exact updA_pred P _ jobid v hw hj
  · split
    · exact hw
    · obtain ⟨a, b, c, d⟩ := add_job_finish_facts _ jobid wf.job_submit_seq _ st
      rcases d with hsame | ⟨v, hupd⟩
      · rw [hsame]; exact hw
      · rw [hupd]; exact updA_pred P _ jobid v hw hj

theorem add_job_create (wf : Workflow) (jobid st : String) (sid : Option String)
    (hfind : find_job_submit_seq wf jobid sid = none)
    (hfresh : List.lookup (jobid, wf.job_submit_seq) wf.jobs = none) :
    (add_job wf jobid st sid).2 = some wf.job_submit_seq ∧
    (add_job wf jobid st sid).1.job_submit_seq = wf.job_submit_seq + 1 ∧
    (add_job wf jobid st sid).1.jobs_map = updF wf.jobs_map jobid wf.job_submit_seq ∧
    (List.lookup (jobid, wf.job_submit_seq) (add_job wf jobid st sid).1.jobs).isSome = true ∧
    (∀ k2, k2 ≠ (jobid, wf.job_submit_seq) →
      List.lookup k2 (add_job wf jobid st sid).1.jobs = List.lookup k2 wf.jobs) := by
  simp only [add_job, hfind, hfresh, Option.isSome_none, Bool.false_eq_true, if_false]
  unfold add_job_finish
  split
  · refine ⟨rfl, rfl, rfl, ?_, ?_⟩
    · rw [lookup_writeJob_self, lookup_cons_if]
      simp
    · intro k2 hk2
      rw [lookup_writeJob_ne _ _ _ _ hk2, lookup_cons_if]
      simp [beq_eq_false_iff_ne.mpr hk2]
  · refine ⟨rfl, rfl, rfl, ?_, ?_⟩
    · rw [lookup_cons_if]
      simp
    · intro k2 hk2
      rw [lookup_cons_if]
      simp [beq_eq_false_iff_ne.mpr hk2]

theorem update_job_state_preserves (wf : Workflow) (jobid : String) (sid : Option String)
    (seqo : Option Nat) (st : String) (status : Option Int) (wt : Option String) :
    (update_job_state wf jobid sid seqo st status wt).jobs_map = wf.jobs_map ∧
    (update_job_state wf jobid sid seqo st status wt).job_submit_seq = wf.job_submit_seq ∧
    (update_job_state wf jobid sid seqo st status wt).job_counters = wf.job_counters := by
  simp only [update_job_state]
  split
  · exact ⟨rfl, rfl, rfl⟩
  · split
    · exact ⟨rfl, rfl, rfl⟩
    · exact ⟨rfl, rfl, rfl⟩

theorem start_wf_inv_facts (wf : Workflow) :
    (start_wf wf).job_submit_seq = wf.job_submit_seq ∧
    (start_wf wf).job_counters = wf.job_counters ∧
    (∀ n, (start_wf wf).jobs_map n = none ∨ (start_wf wf).jobs_map n = wf.jobs_map n) := by
  unfold start_wf
  refine ⟨(foldl_del_preserves _ wf).1, (foldl_del_preserves _ wf).2.1, ?_⟩
  intro n
  exact (foldl_del_tables_or _ wf n).1

/-! Preservation of the trace-machine invariant. -/

theorem stepOp_inv (s : Workflow × List (String × Nat)) (op : Op) (hop : goodOp op = true)
    (h : TraceInv s) : TraceInv (stepOp s op) := by
  obtain ⟨h1, h2, h3, h4⟩ := h
  cases op with
  | addJob jobid st sid =>
    have hres : reservedKey jobid = false := by
      simpa [goodOp] using hop
    simp only [stepOp]
    rcases add_job_cases s.1 jobid st sid with ⟨ha, hb⟩ | ⟨ha, hb, hc⟩
    · rw [if_pos ha]
      refine ⟨?_, ?_, h3, ?_⟩
      · intro j q hq
        rw [hb] at hq
        exact h1 j q hq
      · intro p hp
        rw [ha]
        exact h2 p hp
      · exact add_job_counters_pred (fun k => reservedKey k = false) s.1 jobid st sid h4 hres
    · have hne : (add_job s.1 jobid st sid).1.job_submit_seq ≠ s.1.job_submit_seq := by
        rw [ha]
        omega
      rw [if_neg hne]
      refine ⟨?_, ?_, ?_, ?_⟩
      · intro j q hq
        rw [hb] at hq
        unfold updF at hq
        by_cases hj : j = jobid
        · subst hj
          rw [if_pos rfl] at hq
          rcases Option.some.injEq _ _ ▸ hq with rfl
          exact latestCreated_append_self s.2 j s.1.job_submit_seq
        · rw [if_neg hj] at hq
          rw [latestCreated_append_ne s.2 jobid j s.1.job_submit_seq (fun e => hj e.symm)]
          exact h1 j q hq
      · intro p hp
        rw [ha]
        rcases List.mem_append.mp hp with hm | hm
        · exact Nat.lt_succ_of_lt (h2 p hm)
        · rcases List.mem_singleton.mp hm with rfl
          exact Nat.lt_succ_self _
      · rw [List.pairwise_append]
        refine ⟨h3, List.pairwise_singleton _ _, ?_⟩
        intro a ha2 b hb2
        rcases List.mem_singleton.mp hb2 with rfl
        exact h2 a ha2
      · exact add_job_counters_pred (fun k => reservedKey k = false) s.1 jobid st sid h4 hres
  | updateJob jobid sid seqo st status wt =>
    obtain ⟨a, b, c⟩ := update_job_state_preserves s.1 jobid sid seqo st status wt
    simp only [stepOp]
    refine ⟨?_, ?_, h3, ?_⟩
    · intro j q hq
      rw [a] at hq
      exact h1 j q hq
    · intro p hp
      rw [b]
      exact h2 p hp
    · intro p hp
      rw [c] at hp
      exact h4 p hp
  | startWf =>
    obtain ⟨a, b, cmap⟩ := start_wf_inv_facts s.1
    simp only [stepOp]
    refine ⟨?_, ?_, h3, ?_⟩
    · intro j q hq
      rcases cmap j with hnone | hsame
      · rw [hnone] at hq
        cases hq
      · rw [hsame] at hq
        exact h1 j q hq
    · intro p hp
      rw [a]
      exact h2 p hp
    · intro p hp
      rw [b] at hp
      exact h4 p hp
  | restart =>
    obtain ⟨a, b, c, d⟩ := restart_wf_facts s.1 h4
    simp only [stepOp]
    refine ⟨?_, ?_, h3, d⟩
    · intro j q hq
      rw [c] at hq
      cases hq
    · intro p hp
      rw [a]
      exact h2 p hp

theorem init_workflow_inv (uuid : String) (sink : Option Sink) (en mp ss : Bool) :
    TraceInv (init_workflow uuid sink en mp ss, []) := by
  refine ⟨?_, ?_, List.Pairwise.nil, ?_⟩
  · intro j q hq
    cases hq
  · intro p hp
    cases hp
  · intro p hp
    cases hp

theorem foldl_stepOp_inv (ops : List Op) :
    ∀ (s : Workflow × List (String × Nat)), TraceInv s →
      (∀ op ∈ ops, goodOp op = true) → TraceInv (ops.foldl stepOp s) := by
  induction ops with
  | nil =>
    intro s hs _
    exact hs
  | cons op t ih =>
    intro s hs hops2
    rw [List.foldl_cons]
    exact ih (stepOp s op) (stepOp_inv s op (hops2 op (List.mem_cons_self _ _)) hs)
      (fun o ho => hops2 o (List.mem_cons_of_mem _ ho))

theorem runOps_inv (init : Workflow) (ops : List Op) (hinit : TraceInv (init, []))
    (hops : ∀ op ∈ ops, goodOp op = true) : TraceInv (runOps init ops) :=
  foldl_stepOp_inv ops (init, []) hinit hops

/-! Claim theorems. -/

/-- C1: for every workflow the job submit-sequence counter strictly increases
and a submit-sequence number is never reused.  Along any well-formed trace of
signals, restarts included, the creation history carries strictly increasing
sequence numbers; a newly created instance (add_job finding no reusable
instance) is assigned the current counter value and the counter then
increments; and a restart restores the counter from the checkpoint written by
write_workflow_state, so instances created after the restart receive numbers
strictly greater than any assigned before it. -/
theorem c1_submit_seq_strictly_increases (uuid : String) (sink : Option Sink) (en mp ss : Bool)
    (ops : List Op) (hops : ∀ op ∈ ops, goodOp op = true) :
    List.Pairwise (fun a b => a.2 < b.2) (runOps (init_workflow uuid sink en mp ss) ops).2 ∧
    (∀ wf : Workflow, ∀ jobid st : String, ∀ sid : Option String,
      find_job_submit_seq wf jobid sid = none →
      List.lookup (jobid, wf.job_submit_seq) wf.jobs = none →
      (add_job wf jobid st sid).2 = some wf.job_submit_seq ∧
      (add_job wf jobid st sid).1.job_submit_seq = wf.job_submit_seq + 1) ∧
    (∀ wf : Workflow, (∀ p ∈ wf.job_counters, reservedKey p.1 = false) →
      (restart_wf wf).job_submit_seq = wf.job_submit_seq) := by
  refine ⟨?_, ?_, ?_⟩
  · exact (runOps_inv _ ops (init_workflow_inv uuid sink en mp ss) hops).2.2.1
  · intro wf jobid st sid hfind hfresh
    obtain ⟨a, b, _, _, _⟩ := add_job_create wf jobid st sid hfind hfresh
    exact ⟨a, b⟩
  · intro wf h
    exact (restart_wf_facts wf h).1

/-- Witness for C1 at a concrete trace with a restart in the middle. -/
theorem c1_submit_seq_strictly_increases_witness :
    List.Pairwise (fun a b => a.2 < b.2)
      (runOps (init_workflow "wf-1" none true false true)
        [Op.addJob "A" "SUBMIT" none, Op.restart, Op.addJob "A" "SUBMIT" none]).2 :=
  (c1_submit_seq_strictly_increases "wf-1" none true false true
    [Op.addJob "A" "SUBMIT" none, Op.restart, Op.addJob "A" "SUBMIT" none] (by decide)).1

/-- C9: the jobs map always points at the most recently created instance of a
job name: along any well-formed trace, find_jobid resolving a name yields the
sequence number of the most recently created instance of that name; add_job
overwrites the mapping exactly when it creates a new instance; and an
update_job_state call without an explicit submit-sequence number behaves
exactly as if the mapped (latest) sequence number had been passed. -/
theorem c9_jobs_map_resolves_latest (uuid : String) (sink : Option Sink) (en mp ss : Bool)
    (ops : List Op) (hops : ∀ op ∈ ops, goodOp op = true) :
    (∀ jobid seq,
      find_jobid (runOps (init_workflow uuid sink en mp ss) ops).1 jobid = some seq →
      latestCreated (runOps (init_workflow uuid sink en mp ss) ops).2 jobid = some seq) ∧
    (∀ wf : Workflow, ∀ jobid st : String, ∀ sid : Option String,
      ((add_job wf jobid st sid).1.job_submit_seq = wf.job_submit_seq ∧
        (add_job wf jobid st sid).1.jobs_map = wf.jobs_map) ∨
      ((add_job wf jobid st sid).1.job_submit_seq = wf.job_submit_seq + 1 ∧
        (add_job wf jobid st sid).1.jobs_map = updF wf.jobs_map jobid wf.job_submit_seq ∧
        (add_job wf jobid st sid).2 = some wf.job_submit_seq)) ∧
    (∀ wf : Workflow, ∀ jobid : String, ∀ sid : Option String, ∀ st : String,
      ∀ status : Option Int, ∀ wt : Option String,
      update_job_state wf jobid sid none st status wt =
        update_job_state wf jobid sid (wf.jobs_map jobid) st status wt) := by
  refine ⟨?_, ?_, ?_⟩
  · intro jobid seq h
    exact (runOps_inv _ ops (init_workflow_inv uuid sink en mp ss) hops).1 jobid seq h
  · intro wf jobid st sid
    exact add_job_cases wf jobid st sid
  · intro wf jobid sid st status wt
    cases hm : wf.jobs_map jobid
    · simp [update_job_state, hm]
    · simp [update_job_state, hm]

/-- Witness for C9: after a resubmission the map resolves job A to its second
instance, which is the most recently created one. -/
theorem c9_jobs_map_resolves_latest_witness :
    latestCreated
      (runOps (init_workflow "wf-2" none true false true)
        [Op.addJob "A" "SUBMIT" none, Op.addJob "A" "SUBMIT" (some "7")]).2 "A" = some 2 :=
  (c9_jobs_map_resolves_latest "wf-2" none true false true
    [Op.addJob "A" "SUBMIT" none, Op.addJob "A" "SUBMIT" (some "7")] (by decide)).1 "A" 2
    (by decide)

/-- C10: write_workflow_progress writes the recovery marker only when the
current line has caught up with the offset recorded by the previous daemon
instance; it returns without writing when the current line is strictly below
it, so within a run the marker is never replaced by a value smaller than the
offset recovered at startup. -/
theorem c10_write_progress_monotone (wf : Workflow) :
    (wf.line < wf.previous_processed_line → write_workflow_progress wf = none) ∧
    (∀ v, write_workflow_progress wf = some v →
      wf.previous_processed_line ≤ v ∧ v = wf.line) := by
  constructor
  · intro h
    simp [write_workflow_progress, h]
  · intro v hv
    unfold write_workflow_progress at hv
    by_cases h : wf.line < wf.previous_processed_line
    · rw [if_pos h] at hv
      cases hv
    · rw [if_neg h] at hv
      have hle := Option.some.inj hv
      constructor
      · omega
      · omega

/-- Witness for C10 at line seven with recovered offset three. -/
theorem c10_write_progress_monotone_witness :
    write_workflow_progress { line := 7, previous_processed_line := 3 } = some 7 ∧
    (3 : Nat) ≤ 7 :=
  ⟨by decide,
    ((c10_write_progress_monotone { line := 7, previous_processed_line := 3 }).2 7
      (by decide)).1⟩

/-- C4: the first failure raised by the sink's send permanently disables event
output.  When the sink raises, output_to_db logs the failure, records the one
failing invocation, and sets the database-disabled flag; once the flag is set,
any sequence of later output_to_db calls returns the state unchanged, so the
sink is never invoked again for the rest of the run.  No failure propagates:
output_to_db is a total function into Workflow. -/
theorem c4_output_to_db_fail_open (wf : Workflow) (sink : Sink) (event : String)
    (kwargs : Kwargs) (hs : wf.sink = some sink) :
    (wf.database_disabled = false → sink.send event kwargs = false →
      (output_to_db wf event kwargs).database_disabled = true ∧
      (output_to_db wf event kwargs).send_calls = wf.send_calls ++ [(event, kwargs)] ∧
      (output_to_db wf event kwargs).warnings =
        wf.warnings ++
          ["NL-LOAD-ERROR --> " ++ wf.wf_uuid, "error sending event: " ++ event]) ∧
    (∀ calls : List (String × Kwargs), wf.database_disabled = true →
      calls.foldl (fun w ek => output_to_db w ek.1 ek.2) wf = wf) := by
  have hone : ∀ (w : Workflow), w.database_disabled = true →
      ∀ e k, output_to_db w e k = w := by
    intro w hw e k
    unfold output_to_db
    cases hsw : w.sink
    · rfl
    · simp [hw]
  constructor
  · intro hd hsend
    unfold output_to_db
    rw [hs]
    simp [hd, hsend]
  · intro calls hd
    induction calls with
    | nil => rfl
    | cons c t ih =>
      rw [List.foldl_cons, hone wf hd c.1 c.2]
      exact ih

/-- Witness for C4: a failing sink disables the database and later calls
change nothing. -/
theorem c4_output_to_db_fail_open_witness :
    (output_to_db c4wf "xwf.start" []).database_disabled = true ∧
    (output_to_db c4wf "xwf.start" []).send_calls = c4wf.send_calls ++ [("xwf.start", [])] ∧
    ([(("job_inst.main.end" : String), ([] : Kwargs))].foldl
        (fun w ek => output_to_db w ek.1 ek.2) { c4wf with database_disabled := true }) =
      { c4wf with database_disabled := true } := by
  have h := c4_output_to_db_fail_open c4wf failSink "xwf.start" [] rfl
  have h2 := c4_output_to_db_fail_open { c4wf with database_disabled := true } failSink
    "xwf.start" [] rfl
  exact ⟨(h.1 rfl rfl).1, (h.1 rfl rfl).2.1,
    h2.2 [(("job_inst.main.end" : String), ([] : Kwargs))] rfl⟩

/-- C2 counterexample: a live instance in the pre-terminal state
PRE_SCRIPT_SUCCESS whose recorded scheduler id 100 differs from the signal's
scheduler id 200 is nevertheless found by find_job_submit_seq and mutated in
place by add_job: no fresh instance is created (the counter stays at two) and
the existing instance's state and scheduler id are overwritten, contradicting
the claim that such a signal is never applied to the instance. -/
theorem c2_counterexample :
    c2job.job_state = "PRE_SCRIPT_SUCCESS" ∧
    c2job.sched_id = some "100" ∧
    find_job_submit_seq c2wf "A" (some "200") = some 1 ∧
    (add_job c2wf "A" "SUBMIT" (some "200")).2 = some 1 ∧
    (add_job c2wf "A" "SUBMIT" (some "200")).1.job_submit_seq = 2 ∧
    Option.map Job.job_state
      (List.lookup ("A", 1) (add_job c2wf "A" "SUBMIT" (some "200")).1.jobs) = some "SUBMIT" ∧
    Option.map Job.sched_id
      (List.lookup ("A", 1) (add_job c2wf "A" "SUBMIT" (some "200")).1.jobs) =
        some (some "200") := by
  decide

/-- C2 amended: for a live instance whose state is past the reuse states
(neither PRE_SCRIPT_SUCCESS nor DAGMAN_SUBMIT) and whose recorded scheduler id
differs from the signal's scheduler id, the signal is never applied to that
instance: find_job_submit_seq returns none and add_job creates a fresh Job
Instance with a new submit-sequence number, leaving the existing instance
unchanged. -/
theorem c2_amended_sched_mismatch_fresh (wf : Workflow) (jobid st sid : String)
    (seq : Nat) (job : Job)
    (hmap : wf.jobs_map jobid = some seq)
    (hjob : List.lookup (jobid, seq) wf.jobs = some job)
    (h1 : job.job_state ≠ "PRE_SCRIPT_SUCCESS")
    (h2 : job.job_state ≠ "DAGMAN_SUBMIT")
    (h3 : job.sched_id ≠ some sid)
    (hfresh : List.lookup (jobid, wf.job_submit_seq) wf.jobs = none) :
    find_job_submit_seq wf jobid (some sid) = none ∧
    (add_job wf jobid st (some sid)).2 = some wf.job_submit_seq ∧
    (add_job wf jobid st (some sid)).1.job_submit_seq = wf.job_submit_seq + 1 ∧
    List.lookup (jobid, seq) (add_job wf jobid st (some sid)).1.jobs = some job := by
  have hfind : find_job_submit_seq wf jobid (some sid) = none := by
    unfold find_job_submit_seq find_jobid
    simp [hmap, hjob, h1, h2, h3]
  obtain ⟨a, b, c, d, e⟩ := add_job_create wf jobid st (some sid) hfind hfresh
  have hne : seq ≠ wf.job_submit_seq := by
    intro h
    rw [h, hfresh] at hjob
    cases hjob
  refine ⟨hfind, a, b, ?_⟩
  rw [e (jobid, seq) (fun hx => hne (congrArg Prod.snd hx))]
  exact hjob

/-- Witness for C2 amended at the executing instance (B, 3) with scheduler id
100 receiving a signal with scheduler id 200. -/
theorem c2_amended_sched_mismatch_fresh_witness :
    find_job_submit_seq w2wf "B" (some "200") = none ∧
    (add_job w2wf "B" "SUBMIT" (some "200")).2 = some 4 ∧
    (add_job w2wf "B" "SUBMIT" (some "200")).1.job_submit_seq = 5 ∧
    List.lookup ("B", 3) (add_job w2wf "B" "SUBMIT" (some "200")).1.jobs = some w2job :=
  c2_amended_sched_mismatch_fresh w2wf "B" "SUBMIT" "200" 3 w2job (by decide) (by decide)
    (by decide) (by decide) (by decide) (by decide)

/-- C3 counterexample: with a recovery marker recording offset five and replay
mode off, last_processed_line does reset to zero, but the projection
suppression is strict: the input line numbered exactly five, which is at the
marker offset and hence covered by the claim's at-or-before threshold, passes
the notification gate. -/
theorem c3_counterexample :
    c3wf.previous_processed_line = 5 ∧
    c3wf.last_processed_line = 0 ∧
    check_notifications { c3wf with line := 5 } = true := by
  decide

/-- C3 amended: when a recovery marker recording a nonzero offset P is present
at startup and replay mode is off, the workflow enters recovery mode: the
effective starting offset last_processed_line resets to zero, the recovered
offset P becomes the suppression threshold, and notification processing is
suppressed exactly for lines strictly before P; the line at offset P itself is
processed normally. -/
theorem c3_amended_strict_suppression (wf0 : Workflow)
    (state_lines : Option (List (String × Nat))) (P : Nat) (hP : P ≠ 0) :
    (init_recover_state wf0 false state_lines
        (some [("line_processed", P)])).previous_processed_line = P ∧
    (init_recover_state wf0 false state_lines
        (some [("line_processed", P)])).last_processed_line = 0 ∧
    (∀ n, n < P →
      check_notifications
        { init_recover_state wf0 false state_lines (some [("line_processed", P)]) with
          line := n } = false) ∧
    (∀ n, P ≤ n → wf0.enable_notifications = true →
      check_notifications
        { init_recover_state wf0 false state_lines (some [("line_processed", P)]) with
          line := n } = true) := by
  set A := (match state_lines with
    | some ls => read_workflow_state_lines wf0 ls
    | none => wf0) with hA
  set B := read_workflow_progress A (some [("line_processed", P)]) with hB
  have hfind : List.find? (fun p => p.1 == "line_processed") [("line_processed", P)] =
      some ("line_processed", P) := by simp
  have hBprev : B.previous_processed_line = P := by
    rw [hB]
    unfold read_workflow_progress
    dsimp only
    rw [hfind]
  have hBen : B.enable_notifications = A.enable_notifications := by
    rw [hB]
    unfold read_workflow_progress
    dsimp only
    rw [hfind]
  have hAen : A.enable_notifications = wf0.enable_notifications := by
    rw [hA]
    cases state_lines with
    | none => rfl
    | some ls => exact (read_state_fold_preserves ls wf0).2.2.2
  have e : init_recover_state wf0 false state_lines (some [("line_processed", P)]) =
      if B.previous_processed_line ≠ 0 then { B with last_processed_line := 0 } else B := rfl
  have hcond : B.previous_processed_line ≠ 0 := by
    rw [hBprev]
    exact hP
  rw [e, if_pos hcond]
  refine ⟨hBprev, rfl, ?_, ?_⟩
  · intro n hn
    cases hen : B.enable_notifications
    · simp [check_notifications, hen]
    · simp [check_notifications, hen, hBprev, hn]
  · intro n hnP hen0
    have hen : B.enable_notifications = true := by
      rw [hBen, hAen]
      exact hen0
    have hnlt : ¬ (n < P) := Nat.not_lt.mpr hnP
    simp [check_notifications, hen, hBprev, hnlt]

/-- Witness for C3 amended: marker offset five, line four suppressed, line
five processed. -/
theorem c3_amended_strict_suppression_witness :
    (init_recover_state { enable_notifications := true } false none
        (some [("line_processed", 5)])).last_processed_line = 0 ∧
    check_notifications
      { init_recover_state { enable_notifications := true } false none
          (some [("line_processed", 5)]) with line := 4 } = false ∧
    check_notifications
      { init_recover_state { enable_notifications := true } false none
          (some [("line_processed", 5)]) with line := 5 } = true := by
  have h := c3_amended_strict_suppression { enable_notifications := true } none 5 (by decide)
  exact ⟨h.2.1, h.2.2.1 4 (by decide), h.2.2.2 5 (by decide) rfl⟩

theorem lookup_mem (l : List ((String × Nat) × Job)) (k : String × Nat) (v : Job)
    (h : List.lookup k l = some v) : (k, v) ∈ l := by
  induction l with
  | nil => cases h
  | cons p t ih =>
    obtain ⟨pk, pv⟩ := p
    rw [lookup_cons_if] at h
    by_cases hk : (k == pk) = true
    · rw [if_pos hk] at h
      have hv := Option.some.inj h
      have hkk : k = pk := eq_of_beq hk
      subst hkk
      subst hv
      exact List.mem_cons_self _ _
    · rw [if_neg hk] at h
      exact List.mem_cons_of_mem _ (ih h)

theorem nodup_key_unique (l : List ((String × Nat) × Job))
    (hnd : (l.map Prod.fst).Nodup) (k : String × Nat) (v1 v2 : Job)
    (h1 : (k, v1) ∈ l) (h2 : (k, v2) ∈ l) : v1 = v2 := by
  induction l with
  | nil => cases h1
  | cons p t ih =>
    rw [List.map_cons, List.nodup_cons] at hnd
    rcases List.mem_cons.mp h1 with e1 | m1
    · rcases List.mem_cons.mp h2 with e2 | m2
      · have e3 := e2.trans e1.symm
        injection e3 with ea eb
        exact eb.symm
      · exfalso
        apply hnd.1
        rw [← e1]
        show k ∈ List.map Prod.fst t
        exact List.mem_map_of_mem Prod.fst m2
    · rcases List.mem_cons.mp h2 with e2 | m2
      · exfalso
        apply hnd.1
        rw [← e2]
        show k ∈ List.map Prod.fst t
        exact List.mem_map_of_mem Prod.fst m1
      · exact ih hnd.2 m1 m2

/-- C5 counterexample: on the controller restart signal the restart counter
increments, but the instance (A, 1), which rests in POST_SCRIPT_FAILURE, a
fully-terminal state per the spec's state machine, is not evicted from the
live index: start_wf removes only successfully finished instances. -/
theorem c5_counterexample :
    spec_fully_terminal c5wf "A" c5job = true ∧
    c5job.job_state = "POST_SCRIPT_FAILURE" ∧
    (handle_dagman_started c5wf).restart_count = c5wf.restart_count + 1 ∧
    List.lookup ("A", 1) (handle_dagman_started c5wf).jobs = some c5job ∧
    (handle_dagman_started c5wf).jobs_map "A" = some 1 := by
  decide

/-- C5 amended: on every controller (re)start signal the restart counter
increments by one and exactly the successfully finished Job Instances are
evicted from the live index: those in POST_SCRIPT_SUCCESS, or in JOB_SUCCESS
whose static info is present and records no post script (the evict_entry
predicate).  Evicted instances disappear from the jobs table and their names
from the jobs-map, walltime and site tables; all other instances, including
failed-terminal ones, are kept. -/
theorem c5_amended_restart_evicts_successful (wf : Workflow)
    (hnd : (wf.jobs.map Prod.fst).Nodup) :
    (handle_dagman_started wf).restart_count = wf.restart_count + 1 ∧
    (∀ k job, List.lookup k wf.jobs = some job → evict_entry wf (k, job) = true →
      List.lookup k (handle_dagman_started wf).jobs = none ∧
      (handle_dagman_started wf).jobs_map k.1 = none ∧
      (handle_dagman_started wf).walltime k.1 = none ∧
      (handle_dagman_started wf).job_site k.1 = none) ∧
    (∀ k job, List.lookup k wf.jobs = some job → evict_entry wf (k, job) = false →
      List.lookup k (handle_dagman_started wf).jobs = some job) := by
  obtain ⟨cjobs, cmap, cwall, csite, crestart, _, _⟩ :=
    change_wf_state_facts (start_wf wf) "start"
  have hdel : start_wf wf =
      ((wf.jobs.filter (fun p => evict_entry wf p)).map (fun p => p.1)).foldl
        del_entry wf := rfl
  have hhandle : handle_dagman_started wf = change_wf_state (start_wf wf) "start" := rfl
  refine ⟨?_, ?_, ?_⟩
  · rw [hhandle, crestart, if_pos rfl, hdel,
      (foldl_del_preserves ((wf.jobs.filter (fun p => evict_entry wf p)).map
        (fun p => p.1)) wf).2.2]
  · intro k job hlk hev
    have hmem : (k, job) ∈ wf.jobs := lookup_mem wf.jobs k job hlk
    have hfil : (k, job) ∈ wf.jobs.filter (fun p => evict_entry wf p) :=
      List.mem_filter.mpr ⟨hmem, hev⟩
    have hkmem : k ∈ (wf.jobs.filter (fun p => evict_entry wf p)).map (fun p => p.1) :=
      List.mem_map_of_mem (fun p => p.1) hfil
    refine ⟨?_, ?_, ?_, ?_⟩
    · rw [hhandle, cjobs, hdel]
      exact foldl_del_jobs_lookup_mem _ wf k hkmem
    · rw [hhandle, cmap, hdel]
      exact (foldl_del_tables_mem _ wf k.1 ⟨k, hkmem, rfl⟩).1
    · rw [hhandle, cwall, hdel]
      exact (foldl_del_tables_mem _ wf k.1 ⟨k, hkmem, rfl⟩).2.1
    · rw [hhandle, csite, hdel]
      exact (foldl_del_tables_mem _ wf k.1 ⟨k, hkmem, rfl⟩).2.2
  · intro k job hlk hev
    have hmem : (k, job) ∈ wf.jobs := lookup_mem wf.jobs k job hlk
    have hknot : k ∉ (wf.jobs.filter (fun p => evict_entry wf p)).map (fun p => p.1) := by
      intro hk
      rcases List.mem_map.mp hk with ⟨q, hq, hq1⟩
      have hqjobs : q ∈ wf.jobs := (List.mem_filter.mp hq).1
      have hqev : evict_entry wf q = true := (List.mem_filter.mp hq).2
      obtain ⟨qk, qv⟩ := q
      cases hq1
      have hveq : qv = job := nodup_key_unique wf.jobs hnd qk qv job hqjobs hmem
      rw [hveq] at hqev
      exact Bool.noConfusion (hqev.symm.trans hev)
    rw [hhandle, cjobs, hdel]
    exact (foldl_del_jobs_lookup_not_mem _ wf k hknot).trans hlk

/-- Witness for C5 amended: the POST_SCRIPT_SUCCESS instance (C, 2) is evicted
and the restart counter increments. -/
theorem c5_amended_restart_evicts_successful_witness :
    (handle_dagman_started w5wf).restart_count = w5wf.restart_count + 1 ∧
    List.lookup ("C", 2) (handle_dagman_started w5wf).jobs = none ∧
    (handle_dagman_started w5wf).jobs_map "C" = none := by
  have h := c5_amended_restart_evicts_successful w5wf (by decide)
  have hb := h.2.1 ("C", 2) w5job (by decide) (by decide)
  exact ⟨h.1, hb.1, hb.2.1⟩

/-- C6 counterexample: add_job never consults the static job info; a signal
for the job name A, which has no entry in job_info, still creates a fresh Job
Instance and returns its submit-sequence number, so the signal is not
dropped. -/
theorem c6_counterexample :
    ({} : Workflow).job_info "A" = none ∧
    (add_job {} "A" "SUBMIT" none).2 = some 1 ∧
    Option.map Job.job_state (List.lookup ("A", 1) (add_job {} "A" "SUBMIT" none).1.jobs) =
      some "SUBMIT" := by
  decide

/-- C6 amended: a signal whose job name has no static info is not dropped:
add_job creates a fresh Job Instance for it all the same and returns normally
with the new submit-sequence number; the anomaly is non-fatal and only
surfaces later as logged warnings where static info is needed. -/
theorem c6_amended_unknown_job_creates (wf : Workflow) (jobid st : String) (sid : Option String)
    (_hinfo : wf.job_info jobid = none)
    (hmap : wf.jobs_map jobid = none)
    (hfresh : List.lookup (jobid, wf.job_submit_seq) wf.jobs = none) :
    (add_job wf jobid st sid).2 = some wf.job_submit_seq ∧
    (List.lookup (jobid, wf.job_submit_seq) (add_job wf jobid st sid).1.jobs).isSome = true ∧
    (add_job wf jobid st sid).1.job_submit_seq = wf.job_submit_seq + 1 := by
  have hfind : find_job_submit_seq wf jobid sid = none := by
    unfold find_job_submit_seq find_jobid
    simp [hmap]
  obtain ⟨a, b, c, d, e⟩ := add_job_create wf jobid st sid hfind hfresh
  exact ⟨a, d, b⟩

/-- Witness for C6 amended: an unknown job name still creates instance nine. -/
theorem c6_amended_unknown_job_creates_witness :
    (add_job { job_submit_seq := 9 } "X" "EXECUTE" none).2 = some 9 ∧
    (add_job { job_submit_seq := 9 } "X" "EXECUTE" none).1.job_submit_seq = 10 := by
  have h := c6_amended_unknown_job_creates { job_submit_seq := 9 } "X" "EXECUTE" none rfl rfl rfl
  exact ⟨h.1, h.2.2⟩

theorem stdout_text_part_bound (job : Job) :
    ∀ t, ("stdout__text", Value.vtext t) ∈ (stdout_text_part job).1 →
      t.length ≤ MAX_OUTPUT_LENGTH := by
  intro t ht
  cases ho : job.stdout_text with
  | none => simp [stdout_text_part, ho] at ht
  | some s =>
    by_cases hlen : s.length > MAX_OUTPUT_LENGTH
    · simp [stdout_text_part, ho, hlen] at ht
      rw [ht, List.length_take]
      exact min_le_left _ _
    · simp [stdout_text_part, ho, hlen] at ht
      rw [ht]
      exact Nat.le_of_not_lt hlen

theorem stderr_text_part_bound (job : Job) :
    ∀ t, ("stderr__text", Value.vtext t) ∈ (stderr_text_part job).1 →
      t.length ≤ MAX_OUTPUT_LENGTH := by
  intro t ht
  cases ho : job.stderr_text with
  | none => simp [stderr_text_part, ho] at ht
  | some s =>
    by_cases hlen : s.length > MAX_OUTPUT_LENGTH
    · simp [stderr_text_part, ho, hlen] at ht
      rw [ht, List.length_take]
      exact min_le_left _ _
    · simp [stderr_text_part, ho, hlen] at ht
      rw [ht]
      exact Nat.le_of_not_lt hlen

theorem stderr_text_part_no_stdout_key (job : Job) :
    ∀ v, ("stdout__text", v) ∉ (stderr_text_part job).1 := by
  intro v hv
  cases ho : job.stderr_text with
  | none => simp [stderr_text_part, ho] at hv
  | some s =>
    by_cases hlen : s.length > MAX_OUTPUT_LENGTH <;>
      simp [stderr_text_part, ho, hlen] at hv

theorem stdout_text_part_no_stderr_key (job : Job) :
    ∀ v, ("stderr__text", v) ∉ (stdout_text_part job).1 := by
  intro v hv
  cases ho : job.stdout_text with
  | none => simp [stdout_text_part, ho] at hv
  | some s =>
    by_cases hlen : s.length > MAX_OUTPUT_LENGTH <;>
      simp [stdout_text_part, ho, hlen] at hv

/-- C7: in every emitted main-phase end event the stdout__text and
stderr__text fields never exceed MAX_OUTPUT_LENGTH: any such field in the
event carries at most that many bytes; text longer than the maximum appears
truncated to exactly MAX_OUTPUT_LENGTH bytes together with a logged
truncation warning; and text at or below the maximum passes through
unchanged. -/
theorem c7_stdtext_bounded (wf : Workflow) (job : Job) :
    (∀ t, ("stdout__text", Value.vtext t) ∈ (db_send_job_end_stdtext wf job).1 →
      t.length ≤ MAX_OUTPUT_LENGTH) ∧
    (∀ t, ("stderr__text", Value.vtext t) ∈ (db_send_job_end_stdtext wf job).1 →
      t.length ≤ MAX_OUTPUT_LENGTH) ∧
    (∀ s, wf.store_stdout_stderr = true → job.stdout_text = some s →
      (MAX_OUTPUT_LENGTH < s.length →
        ("stdout__text", Value.vtext (s.take MAX_OUTPUT_LENGTH)) ∈
          (db_send_job_end_stdtext wf job).1 ∧
        (s.take MAX_OUTPUT_LENGTH).length = MAX_OUTPUT_LENGTH ∧
        ("truncating stdout for job " ++ job.exec_job_id) ∈
          (db_send_job_end_stdtext wf job).2) ∧
      (s.length ≤ MAX_OUTPUT_LENGTH →
        ("stdout__text", Value.vtext s) ∈ (db_send_job_end_stdtext wf job).1)) ∧
    (∀ s, wf.store_stdout_stderr = true → job.stderr_text = some s →
      (MAX_OUTPUT_LENGTH < s.length →
        ("stderr__text", Value.vtext (s.take MAX_OUTPUT_LENGTH)) ∈
          (db_send_job_end_stdtext wf job).1 ∧
        (s.take MAX_OUTPUT_LENGTH).length = MAX_OUTPUT_LENGTH ∧
        ("truncating stderr for job " ++ job.exec_job_id) ∈
          (db_send_job_end_stdtext wf job).2) ∧
      (s.length ≤ MAX_OUTPUT_LENGTH →
        ("stderr__text", Value.vtext s) ∈ (db_send_job_end_stdtext wf job).1)) := by
  refine ⟨?_, ?_, ?_, ?_⟩
  · intro t ht
    by_cases hstore : wf.store_stdout_stderr
    · rw [db_send_job_end_stdtext, if_pos hstore] at ht
      rcases List.mem_append.mp ht with h | h
      · exact stdout_text_part_bound job t h
      · exact absurd h (stderr_text_part_no_stdout_key job (Value.vtext t))
    · simp [db_send_job_end_stdtext, hstore] at ht
  · intro t ht
    by_cases hstore : wf.store_stdout_stderr
    · rw [db_send_job_end_stdtext, if_pos hstore] at ht
      rcases List.mem_append.mp ht with h | h
      · exact absurd h (stdout_text_part_no_stderr_key job (Value.vtext t))
      · exact stderr_text_part_bound job t h
    · simp [db_send_job_end_stdtext, hstore] at ht
  · intro s hstore hsome
    constructor
    · intro hlen
      refine ⟨?_, ?_, ?_⟩
      · rw [db_send_job_end_stdtext, if_pos hstore]
        apply List.mem_append.mpr
        left
        simp [stdout_text_part, hsome, hlen]
      · rw [List.length_take]
        exact min_eq_left (Nat.le_of_lt hlen)
      · rw [db_send_job_end_stdtext, if_pos hstore]
        apply List.mem_append.mpr
        left
        simp [stdout_text_part, hsome, hlen]
    · intro hle
      have hnot : ¬ (s.length > MAX_OUTPUT_LENGTH) := Nat.not_lt.mpr hle
      rw [db_send_job_end_stdtext, if_pos hstore]
      apply List.mem_append.mpr
      left
      simp [stdout_text_part, hsome, hnot]
  · intro s hstore hsome
    constructor
    · intro hlen
      refine ⟨?_, ?_, ?_⟩
      · rw [db_send_job_end_stdtext, if_pos hstore]
        apply List.mem_append.mpr
        right
        simp [stderr_text_part, hsome, hlen]
      · rw [List.length_take]
        exact min_eq_left (Nat.le_of_lt hlen)
      · rw [db_send_job_end_stdtext, if_pos hstore]
        apply List.mem_append.mpr
        right
        simp [stderr_text_part, hsome, hlen]
    · intro hle
      have hnot : ¬ (s.length > MAX_OUTPUT_LENGTH) := Nat.not_lt.mpr hle
      rw [db_send_job_end_stdtext, if_pos hstore]
      apply List.mem_append.mpr
      right
      simp [stderr_text_part, hsome, hnot]

/-- Witness for C7: a 65536-byte stdout is truncated to the 65535-byte
maximum with the warning logged. -/
theorem c7_stdtext_bounded_witness :
    ("stdout__text", Value.vtext ((List.replicate 65536 'x').take MAX_OUTPUT_LENGTH)) ∈
      (db_send_job_end_stdtext {} w7job).1 ∧
    ((List.replicate 65536 'x').take MAX_OUTPUT_LENGTH).length = MAX_OUTPUT_LENGTH ∧
    ("truncating stdout for job " ++ w7job.exec_job_id) ∈
      (db_send_job_end_stdtext {} w7job).2 := by
  have h := ((c7_stdtext_bounded {} w7job).2.2.1 (List.replicate 65536 'x') rfl rfl).1
    (by rw [List.length_replicate]; decide)
  exact h

/-- C8: sub-workflow nested-log resolution with a retry-counter map available.
The first encounter of a base directory records counter zero and each later
encounter increments it by one; the resolver returns the nested log path
inside the directory named base.(counter zero-padded to three digits); if that
directory does not exist on disk it falls back to base.000; and if base.000
does not exist either, the resolver returns none rather than failing. -/
theorem c8_retry_dir_resolution (fs : String → Bool) (m : String → Option Nat)
    (dir file : String) :
    ((m dir = none → (has_subworkflow_retry_dir fs m dir file).1 dir = some 0) ∧
     (∀ r0, m dir = some r0 →
       (has_subworkflow_retry_dir fs m dir file).1 dir = some (r0 + 1)) ∧
     (∀ d, d ≠ dir → (has_subworkflow_retry_dir fs m dir file).1 d = m d)) ∧
    (∀ r, (has_subworkflow_retry_dir fs m dir file).1 dir = some r →
      ((fs (dir ++ "." ++ fmt3 r) = true →
        (has_subworkflow_retry_dir fs m dir file).2 =
          some (dir ++ "." ++ fmt3 r ++ "/" ++ file)) ∧
       (fs (dir ++ "." ++ fmt3 r) = false → fs (dir ++ ".000") = true →
        (has_subworkflow_retry_dir fs m dir file).2 =
          some (dir ++ ".000" ++ "/" ++ file)) ∧
       (fs (dir ++ "." ++ fmt3 r) = false → fs (dir ++ ".000") = false →
        (has_subworkflow_retry_dir fs m dir file).2 = none))) := by
  refine ⟨⟨?_, ?_, ?_⟩, ?_⟩
  · intro hm
    simp [has_subworkflow_retry_dir, retry_counter_update, hm, updF]
  · intro r0 hm
    simp [has_subworkflow_retry_dir, retry_counter_update, hm, updF]
  · intro d hd
    cases hm : m dir <;>
      simp [has_subworkflow_retry_dir, retry_counter_update, hm, updF, hd]
  · intro r hr
    have hr2 : (retry_counter_update m dir).2 = r := by
      cases hm : m dir with
      | none =>
        simp [has_subworkflow_retry_dir, retry_counter_update, hm, updF] at hr
        simp [retry_counter_update, hm]
        omega
      | some r0 =>
        simp [has_subworkflow_retry_dir, retry_counter_update, hm, updF] at hr
        simp [retry_counter_update, hm]
        omega
    have e : (has_subworkflow_retry_dir fs m dir file).2 =
        retry_dir_select fs dir file r := by
      rw [show (has_subworkflow_retry_dir fs m dir file).2 =
        retry_dir_select fs dir file (retry_counter_update m dir).2 from rfl, hr2]
    refine ⟨?_, ?_, ?_⟩
    · intro hf1
      rw [e]
      simp [retry_dir_select, hf1]
    · intro hf1 hf2
      rw [e]
      simp [retry_dir_select, hf1, hf2]
    · intro hf1 hf2
      rw [e]
      simp [retry_dir_select, hf1, hf2]

/-- Witness for C8: base directory w was seen once, so this encounter uses
counter one; only w.001 exists, so the resolver picks it. -/
theorem c8_retry_dir_resolution_witness :
    (has_subworkflow_retry_dir w8fs w8retries "w" "f.dagman.out").1 "w" = some 1 ∧
    (has_subworkflow_retry_dir w8fs w8retries "w" "f.dagman.out").2 =
      some ("w" ++ "." ++ fmt3 1 ++ "/" ++ "f.dagman.out") := by
  have h := c8_retry_dir_resolution w8fs w8retries "w" "f.dagman.out"
  have h1 := h.1.2.1 0 rfl
  exact ⟨h1, (h.2 1 h1).1 (by decide)⟩

end Pegasus
